import Mathlib

/-!
Shallow embedding of the Device Port Configuration Reconciliation Engine
(`devicenetwork/dnc.go`): the `DeviceNetworkContext` record, the event
handlers `HandleDNCModify`, `HandleDPCModify`, `HandleDPCDelete` and the
availability notifier `DoDNSUpdate`.

`DevicePortConfig`, `DeviceNetworkStatus` and `DeviceNetworkConfig` are
abstract structural values in the engine (compared only by `reflect.DeepEqual`),
so they are type parameters `PC`, `NS`, `DNC` with decidable equality.
The external collaborators (`MakeDeviceNetworkStatus`, `MakeDevicePortConfig`,
`CountLocalAddrAnyNoLinkLocal`) are fields of a `Collab` record; calls to the
effectful collaborators (`UpdateDhcpClient`, `UpdateLedManagerConfig`,
`pubsub` publications) and each invocation of the status projector are
recorded in an effect trace returned alongside the new state.
-/

set_option linter.unusedSectionVars false

namespace DeviceNetwork

/-- Externally observable calls the engine makes, in program order.
`updateDhcpClient newC oldC` records `UpdateDhcpClient(portConfig, *ctx.DevicePortConfig)`;
`makeStatusCall c prev` records an invocation of `MakeDeviceNetworkStatus(c, prev)`;
`ledSignal n` records `types.UpdateLedManagerConfig(n)`;
`pubDNS t s` records `ctx.PubDeviceNetworkStatus.Publish(t, s)`;
`pubDPC t c` records `ctx.PubDevicePortConfig.Publish(t, c)`. -/
inductive Effect (PC NS : Type) where
  | updateDhcpClient (newConfig oldConfig : PC)
  | makeStatusCall (config : PC) (prev : NS)
  | ledSignal (code : Nat)
  | pubDNS (topic : String) (status : NS)
  | pubDPC (topic : String) (config : PC)
  deriving DecidableEq

/-- True exactly on the trace entries recording a status-projector call. -/
def Effect.isMakeStatusCall {PC NS : Type} : Effect PC NS → Bool
  | Effect.makeStatusCall _ _ => true
  | _ => false

/-- True exactly on the trace entries recording a led-manager signal. -/
def Effect.isLedSignal {PC NS : Type} : Effect PC NS → Bool
  | Effect.ledSignal _ => true
  | _ => false

/-- The external collaborators of the engine.
`makeDeviceNetworkStatus` returns the projected status together with an
error flag (`true` = the Go collaborator returned a non-nil error);
`countLocalAddrAnyNoLinkLocal` is the pure usable-address counter;
`makeDevicePortConfig` is the legacy-path port-config builder;
`emptyDNC`, `emptyPC`, `emptyNS` are the Go zero values
`types.DeviceNetworkConfig{}`, `types.DevicePortConfig{}`,
`types.DeviceNetworkStatus{}`. -/
structure Collab (DNC PC NS : Type) where
  makeDeviceNetworkStatus : PC → NS → NS × Bool
  countLocalAddrAnyNoLinkLocal : NS → Nat
  makeDevicePortConfig : DNC → PC
  emptyDNC : DNC
  emptyPC : PC
  emptyNS : NS

/-- The mutable state of `DeviceNetworkContext` in `dnc.go`.
`pubDevicePortConfigGlobal` models the value stored under key "global" in
`ctx.PubDevicePortConfig` (`none` when nothing was published yet);
`hasPubDeviceNetworkStatus` models whether `ctx.PubDeviceNetworkStatus` is
non-nil. Subscription handles carry no state relevant to the handlers. -/
structure DeviceNetworkContext (DNC PC NS : Type) where
  UsableAddressCount : Nat
  ManufacturerModel : String
  DeviceNetworkConfig : DNC
  DevicePortConfig : PC
  DevicePortConfigPrio : Nat
  DeviceNetworkStatus : NS
  pubDevicePortConfigGlobal : Option PC
  hasPubDeviceNetworkStatus : Bool
  Changed : Bool
  deriving DecidableEq

variable {DNC PC NS : Type} [DecidableEq DNC] [DecidableEq PC] [DecidableEq NS]

/-- The priority switch shared verbatim by `HandleDPCModify` and
`HandleDPCDelete`: "global" → 3, "override" → 2, any other key → 1. -/
def priorityOf (key : String) : Nat :=
  if key = "global" then 3
  else if key = "override" then 2
  else 1

/-- `DoDNSUpdate`: signal the led manager on a zero/nonzero usable-address
boundary crossing, cache the new count, publish the status when a status
publication handle exists, and set `Changed`. -/
def DoDNSUpdate (C : Collab DNC PC NS) (ctx : DeviceNetworkContext DNC PC NS) :
    DeviceNetworkContext DNC PC NS × List (Effect PC NS) :=
  let newAddrCount := C.countLocalAddrAnyNoLinkLocal ctx.DeviceNetworkStatus
  let sigs : List (Effect PC NS) :=
    if newAddrCount = 0 ∧ ctx.UsableAddressCount ≠ 0 then [Effect.ledSignal 1]
    else if newAddrCount ≠ 0 ∧ ctx.UsableAddressCount = 0 then [Effect.ledSignal 2]
    else []
  let pubs : List (Effect PC NS) :=
    if ctx.hasPubDeviceNetworkStatus then
      [Effect.pubDNS "global" ctx.DeviceNetworkStatus]
    else []
  ({ ctx with UsableAddressCount := newAddrCount, Changed := true }, sigs ++ pubs)

/-- `HandleDPCModify`: arbitrate by priority, update the DHCP clients and the
active configuration on structural change, recompute the status through
`MakeDeviceNetworkStatus` (its error return is discarded with `_`), and on
structural status change install it and run `DoDNSUpdate`. -/
def HandleDPCModify (C : Collab DNC PC NS) (ctx : DeviceNetworkContext DNC PC NS)
    (key : String) (portConfig : PC) :
    DeviceNetworkContext DNC PC NS × List (Effect PC NS) :=
  if ctx.DevicePortConfigPrio ≠ 0 ∧ priorityOf key > ctx.DevicePortConfigPrio then
    (ctx, [])
  else
    let ctx1 := { ctx with DevicePortConfigPrio := priorityOf key }
    let step4 : DeviceNetworkContext DNC PC NS × List (Effect PC NS) :=
      if ctx1.DevicePortConfig ≠ portConfig then
        ({ ctx1 with DevicePortConfig := portConfig },
          [Effect.updateDhcpClient portConfig ctx1.DevicePortConfig])
      else (ctx1, [])
    let ctx2 := step4.1
    let dnStatus := (C.makeDeviceNetworkStatus portConfig ctx2.DeviceNetworkStatus).1
    let callEff : List (Effect PC NS) :=
      [Effect.makeStatusCall portConfig ctx2.DeviceNetworkStatus]
    if ctx2.DeviceNetworkStatus ≠ dnStatus then
      let res := DoDNSUpdate C { ctx2 with DeviceNetworkStatus := dnStatus }
      (res.1, step4.2 ++ callEff ++ res.2)
    else
      (ctx2, step4.2 ++ callEff)

/-- `HandleDPCDelete`: only the currently owning priority may delete; on
acceptance reset the priority to 0, take the zero `DevicePortConfig` as the
candidate for the DHCP step, and set the zero `DeviceNetworkStatus` directly
(no projector call), running `DoDNSUpdate` when the status changed. -/
def HandleDPCDelete (C : Collab DNC PC NS) (ctx : DeviceNetworkContext DNC PC NS)
    (key : String) :
    DeviceNetworkContext DNC PC NS × List (Effect PC NS) :=
  if ctx.DevicePortConfigPrio ≠ priorityOf key then
    (ctx, [])
  else
    let ctx1 := { ctx with DevicePortConfigPrio := 0 }
    let step4 : DeviceNetworkContext DNC PC NS × List (Effect PC NS) :=
      if ctx1.DevicePortConfig ≠ C.emptyPC then
        ({ ctx1 with DevicePortConfig := C.emptyPC },
          [Effect.updateDhcpClient C.emptyPC ctx1.DevicePortConfig])
      else (ctx1, [])
    let ctx2 := step4.1
    if ctx2.DeviceNetworkStatus ≠ C.emptyNS then
      let res := DoDNSUpdate C { ctx2 with DeviceNetworkStatus := C.emptyNS }
      (res.1, step4.2 ++ res.2)
    else
      (ctx2, step4.2)

/-- `HandleDNCModify` (legacy single-source path): on the registered
manufacturer/model key, overwrite the raw `DeviceNetworkConfig`
unconditionally, rebuild a `DevicePortConfig` and publish it under "global"
only when it differs structurally from the previously published one. -/
def HandleDNCModify (C : Collab DNC PC NS) (ctx : DeviceNetworkContext DNC PC NS)
    (key : String) (config : DNC) :
    DeviceNetworkContext DNC PC NS × List (Effect PC NS) :=
  if key ≠ ctx.ManufacturerModel then
    (ctx, [])
  else
    let oldConfig : PC :=
      match ctx.pubDevicePortConfigGlobal with
      | some c => c
      | none => C.emptyPC
    let ctx1 := { ctx with DeviceNetworkConfig := config }
    let portConfig := C.makeDevicePortConfig config
    if oldConfig ≠ portConfig then
      ({ ctx1 with pubDevicePortConfigGlobal := some portConfig },
        [Effect.pubDPC "global" portConfig])
    else
      (ctx1, [])

/-! ### Basic lemmas about the availability notifier -/

theorem DoDNSUpdate_fst (C : Collab DNC PC NS) (ctx : DeviceNetworkContext DNC PC NS) :
    (DoDNSUpdate C ctx).1 =
      { ctx with
        UsableAddressCount := C.countLocalAddrAnyNoLinkLocal ctx.DeviceNetworkStatus,
        Changed := true } := rfl

theorem DoDNSUpdate_snd (C : Collab DNC PC NS) (ctx : DeviceNetworkContext DNC PC NS) :
    (DoDNSUpdate C ctx).2 =
      (if C.countLocalAddrAnyNoLinkLocal ctx.DeviceNetworkStatus = 0 ∧
          ctx.UsableAddressCount ≠ 0 then [Effect.ledSignal 1]
       else if C.countLocalAddrAnyNoLinkLocal ctx.DeviceNetworkStatus ≠ 0 ∧
          ctx.UsableAddressCount = 0 then [Effect.ledSignal 2]
       else []) ++
      (if ctx.hasPubDeviceNetworkStatus then
        [Effect.pubDNS "global" ctx.DeviceNetworkStatus]
       else []) := rfl

theorem DoDNSUpdate_snd_no_dhcp (C : Collab DNC PC NS)
    (ctx : DeviceNetworkContext DNC PC NS) (a b : PC) :
    Effect.updateDhcpClient a b ∉ (DoDNSUpdate C ctx).2 := by
  rw [DoDNSUpdate_snd]
  intro hmem
  rcases List.mem_append.1 hmem with h | h <;> split_ifs at h <;> simp_all

theorem DoDNSUpdate_snd_no_statusCall (C : Collab DNC PC NS)
    (ctx : DeviceNetworkContext DNC PC NS) (pc : PC) (ns : NS) :
    Effect.makeStatusCall pc ns ∉ (DoDNSUpdate C ctx).2 := by
  rw [DoDNSUpdate_snd]
  intro hmem
  rcases List.mem_append.1 hmem with h | h <;> split_ifs at h <;> simp_all

/-! ### Shape of an accepted Modify, by case on the two structural diffs -/

theorem dpcModify_eq_confSame_statSame (C : Collab DNC PC NS)
    (ctx : DeviceNetworkContext DNC PC NS) (key : String) (pc : PC)
    (hg : ¬ (ctx.DevicePortConfigPrio ≠ 0 ∧ priorityOf key > ctx.DevicePortConfigPrio))
    (h1 : ctx.DevicePortConfig = pc)
    (h2 : (C.makeDeviceNetworkStatus pc ctx.DeviceNetworkStatus).1 =
      ctx.DeviceNetworkStatus) :
    HandleDPCModify C ctx key pc =
      ({ ctx with DevicePortConfigPrio := priorityOf key },
        [Effect.makeStatusCall pc ctx.DeviceNetworkStatus]) := by
  unfold HandleDPCModify
  rw [if_neg hg]
  dsimp only
  rw [if_neg (not_not_intro h1)]
  dsimp only
  rw [if_neg (not_not_intro h2.symm)]
  simp

theorem dpcModify_eq_confSame_statDiff (C : Collab DNC PC NS)
    (ctx : DeviceNetworkContext DNC PC NS) (key : String) (pc : PC)
    (hg : ¬ (ctx.DevicePortConfigPrio ≠ 0 ∧ priorityOf key > ctx.DevicePortConfigPrio))
    (h1 : ctx.DevicePortConfig = pc)
    (h2 : (C.makeDeviceNetworkStatus pc ctx.DeviceNetworkStatus).1 ≠
      ctx.DeviceNetworkStatus) :
    HandleDPCModify C ctx key pc =
      ((DoDNSUpdate C
          { ctx with
            DevicePortConfigPrio := priorityOf key
            DeviceNetworkStatus :=
              (C.makeDeviceNetworkStatus pc ctx.DeviceNetworkStatus).1 }).1,
        Effect.makeStatusCall pc ctx.DeviceNetworkStatus ::
          (DoDNSUpdate C
            { ctx with
              DevicePortConfigPrio := priorityOf key
              DeviceNetworkStatus :=
                (C.makeDeviceNetworkStatus pc ctx.DeviceNetworkStatus).1 }).2) := by
  unfold HandleDPCModify
  rw [if_neg hg]
  dsimp only
  rw [if_neg (not_not_intro h1)]
  dsimp only
  rw [if_pos (Ne.symm h2)]
  simp

theorem dpcModify_eq_confDiff_statSame (C : Collab DNC PC NS)
    (ctx : DeviceNetworkContext DNC PC NS) (key : String) (pc : PC)
    (hg : ¬ (ctx.DevicePortConfigPrio ≠ 0 ∧ priorityOf key > ctx.DevicePortConfigPrio))
    (h1 : ctx.DevicePortConfig ≠ pc)
    (h2 : (C.makeDeviceNetworkStatus pc ctx.DeviceNetworkStatus).1 =
      ctx.DeviceNetworkStatus) :
    HandleDPCModify C ctx key pc =
      ({ ctx with DevicePortConfigPrio := priorityOf key, DevicePortConfig := pc },
        [Effect.updateDhcpClient pc ctx.DevicePortConfig,
          Effect.makeStatusCall pc ctx.DeviceNetworkStatus]) := by
  unfold HandleDPCModify
  rw [if_neg hg]
  dsimp only
  rw [if_pos h1]
  dsimp only
  rw [if_neg (not_not_intro h2.symm)]
  simp

theorem dpcModify_eq_confDiff_statDiff (C : Collab DNC PC NS)
    (ctx : DeviceNetworkContext DNC PC NS) (key : String) (pc : PC)
    (hg : ¬ (ctx.DevicePortConfigPrio ≠ 0 ∧ priorityOf key > ctx.DevicePortConfigPrio))
    (h1 : ctx.DevicePortConfig ≠ pc)
    (h2 : (C.makeDeviceNetworkStatus pc ctx.DeviceNetworkStatus).1 ≠
      ctx.DeviceNetworkStatus) :
    HandleDPCModify C ctx key pc =
      ((DoDNSUpdate C
          { ctx with
            DevicePortConfigPrio := priorityOf key
            DevicePortConfig := pc
            DeviceNetworkStatus :=
              (C.makeDeviceNetworkStatus pc ctx.DeviceNetworkStatus).1 }).1,
        Effect.updateDhcpClient pc ctx.DevicePortConfig ::
          Effect.makeStatusCall pc ctx.DeviceNetworkStatus ::
            (DoDNSUpdate C
              { ctx with
                DevicePortConfigPrio := priorityOf key
                DevicePortConfig := pc
                DeviceNetworkStatus :=
                  (C.makeDeviceNetworkStatus pc ctx.DeviceNetworkStatus).1 }).2) := by
  unfold HandleDPCModify
  rw [if_neg hg]
  dsimp only
  rw [if_pos h1]
  dsimp only
  rw [if_pos (Ne.symm h2)]
  simp

/-! ### Concrete instantiation used by witnesses and counterexamples -/

/-- A concrete collaborator set over `Nat` payloads: the projector adds the
candidate config to the previous status and reports no error, the address
counter is the status value itself, the legacy builder is the identity. -/
def collabN : Collab Nat Nat Nat where
  makeDeviceNetworkStatus := fun pc ns => (pc + ns, false)
  countLocalAddrAnyNoLinkLocal := fun ns => ns
  makeDevicePortConfig := fun c => c
  emptyDNC := 0
  emptyPC := 0
  emptyNS := 0

/-- A fresh context: nothing accepted yet, everything at its zero value. -/
def ctx0 : DeviceNetworkContext Nat Nat Nat where
  UsableAddressCount := 0
  ManufacturerModel := "model"
  DeviceNetworkConfig := 0
  DevicePortConfig := 0
  DevicePortConfigPrio := 0
  DeviceNetworkStatus := 0
  pubDevicePortConfigGlobal := none
  hasPubDeviceNetworkStatus := true
  Changed := false

/-- `ctx0` after a zedagent-tier source became the owner. -/
def ctxPrio1 : DeviceNetworkContext Nat Nat Nat :=
  { ctx0 with DevicePortConfigPrio := 1 }

/-! ### C1, C7, C10 -/

/-- C1: a Modify event is accepted iff the active precedence is 0 (unset) or
the event's precedence (`priorityOf key`: 1 for any non-reserved key, 2 for
"override", 3 for "global") is ≤ the active precedence; after an accepted
event the active configuration equals the event's payload and the active
precedence equals the event's precedence (set even when equal to the current
one); a rejected event returns the state unchanged with no effect. Quantified
over every context, this covers every sequence of Modify events. -/
theorem dpcModify_arbitration (C : Collab DNC PC NS)
    (ctx : DeviceNetworkContext DNC PC NS) (key : String) (pc : PC) :
    ((ctx.DevicePortConfigPrio = 0 ∨ priorityOf key ≤ ctx.DevicePortConfigPrio) →
      (HandleDPCModify C ctx key pc).1.DevicePortConfig = pc ∧
      (HandleDPCModify C ctx key pc).1.DevicePortConfigPrio = priorityOf key) ∧
    (¬ (ctx.DevicePortConfigPrio = 0 ∨ priorityOf key ≤ ctx.DevicePortConfigPrio) →
      HandleDPCModify C ctx key pc = (ctx, [])) := by
  constructor
  · intro hacc
    have hg : ¬ (ctx.DevicePortConfigPrio ≠ 0 ∧
        priorityOf key > ctx.DevicePortConfigPrio) := by omega
    unfold HandleDPCModify
    rw [if_neg hg]
    dsimp only
    split_ifs with h1 h2 h3 <;> simp_all [DoDNSUpdate_fst]
  · intro hrej
    have hg : ctx.DevicePortConfigPrio ≠ 0 ∧
        priorityOf key > ctx.DevicePortConfigPrio := by omega
    unfold HandleDPCModify
    rw [if_pos hg]

/-- Witness for C1: an accepted "override" Modify on a fresh context installs
the payload at precedence 2; a "global" Modify against an active precedence
of 1 is rejected unchanged. -/
theorem dpcModify_arbitration_witness :
    ((HandleDPCModify collabN ctx0 "override" 7).1.DevicePortConfig = 7 ∧
     (HandleDPCModify collabN ctx0 "override" 7).1.DevicePortConfigPrio =
       priorityOf "override") ∧
    HandleDPCModify collabN ctxPrio1 "global" 7 = (ctxPrio1, []) :=
  ⟨(dpcModify_arbitration collabN ctx0 "override" 7).1 (Or.inl rfl),
   (dpcModify_arbitration collabN ctxPrio1 "global" 7).2 (by decide)⟩

/-- C7: a Delete whose precedence differs from the active precedence leaves
the whole context unchanged and performs no collaborator call, signal or
publication (the returned trace is empty). -/
theorem dpcDelete_reject_frame (C : Collab DNC PC NS)
    (ctx : DeviceNetworkContext DNC PC NS) (key : String)
    (h : priorityOf key ≠ ctx.DevicePortConfigPrio) :
    HandleDPCDelete C ctx key = (ctx, []) := by
  unfold HandleDPCDelete
  rw [if_pos (Ne.symm h)]

/-- Witness for C7: deleting at zedagent precedence 1 while nothing is
active (precedence 0) changes nothing. -/
theorem dpcDelete_reject_frame_witness :
    HandleDPCDelete collabN ctx0 "zedagent" = (ctx0, []) :=
  dpcDelete_reject_frame collabN ctx0 "zedagent" (by decide)

/-- C10: an owning Delete finding the active configuration and status already
at their zero values only resets the active precedence to 0: no DHCP call, no
signal, no publication (empty trace), and all other fields untouched. -/
theorem dpcDelete_already_empty (C : Collab DNC PC NS)
    (ctx : DeviceNetworkContext DNC PC NS) (key : String)
    (h1 : priorityOf key = ctx.DevicePortConfigPrio)
    (h2 : ctx.DevicePortConfig = C.emptyPC)
    (h3 : ctx.DeviceNetworkStatus = C.emptyNS) :
    HandleDPCDelete C ctx key = ({ ctx with DevicePortConfigPrio := 0 }, []) := by
  unfold HandleDPCDelete
  rw [if_neg (not_not_intro h1.symm)]
  dsimp only
  rw [if_neg (not_not_intro h2)]
  dsimp only
  rw [if_neg (not_not_intro h3)]

/-- Witness for C10: an owning zedagent Delete on an already-empty context
resets the precedence to 0 with an empty trace. -/
theorem dpcDelete_already_empty_witness :
    HandleDPCDelete collabN ctxPrio1 "zedagent" =
      ({ ctxPrio1 with DevicePortConfigPrio := 0 }, []) :=
  dpcDelete_already_empty collabN ctxPrio1 "zedagent" (by decide) rfl rfl

/-! ### C2: idempotent Modify -/

theorem DoDNSUpdate_snd_countP_statusCall (C : Collab DNC PC NS)
    (ctx : DeviceNetworkContext DNC PC NS) :
    (DoDNSUpdate C ctx).2.countP Effect.isMakeStatusCall = 0 := by
  rw [DoDNSUpdate_snd]
  split_ifs <;> simp [Effect.isMakeStatusCall]

/-- The projector used by the C2 scenario: it reproduces the previous status,
so an idempotent Modify changes nothing but still calls the projector. -/
def collabId : Collab Nat Nat Nat :=
  { collabN with makeDeviceNetworkStatus := fun _ ns => (ns, false) }

/-- An owning zedagent-tier context with active config 7 and status 5. -/
def ctxC2 : DeviceNetworkContext Nat Nat Nat :=
  { ctx0 with
    DevicePortConfigPrio := 1
    DevicePortConfig := 7
    DeviceNetworkStatus := 5 }

/-- Counterexample to C2: re-submitting the active configuration 7 at the
owning precedence is accepted, yet the trace records an invocation of the
status projector (`MakeDeviceNetworkStatus` at line 123 of dnc.go is called
unconditionally on every accepted Modify). -/
theorem dpcModify_idempotent_counterexample :
    ctxC2.DevicePortConfig = 7 ∧
    ctxC2.DevicePortConfigPrio = priorityOf "zed" ∧
    (HandleDPCModify collabId ctxC2 "zed" 7).2 =
      [Effect.makeStatusCall 7 5] := by decide

/-- C2 amended: for an accepted Modify whose payload equals the active
configuration, no DHCP-lifecycle call appears in the trace and the active
precedence is still set to the event's precedence; however the status
projector IS invoked (with the unchanged configuration and previous status),
contrary to the original claim. -/
theorem dpcModify_idempotent (C : Collab DNC PC NS)
    (ctx : DeviceNetworkContext DNC PC NS) (key : String) (pc : PC)
    (hacc : ctx.DevicePortConfigPrio = 0 ∨ priorityOf key ≤ ctx.DevicePortConfigPrio)
    (heq : ctx.DevicePortConfig = pc) :
    (∀ a b, Effect.updateDhcpClient a b ∉ (HandleDPCModify C ctx key pc).2) ∧
    (HandleDPCModify C ctx key pc).1.DevicePortConfigPrio = priorityOf key ∧
    Effect.makeStatusCall pc ctx.DeviceNetworkStatus ∈
      (HandleDPCModify C ctx key pc).2 := by
  have hg : ¬ (ctx.DevicePortConfigPrio ≠ 0 ∧
      priorityOf key > ctx.DevicePortConfigPrio) := by omega
  unfold HandleDPCModify
  rw [if_neg hg]
  dsimp only
  rw [if_neg (not_not_intro heq)]
  dsimp only
  split_ifs with h1
  · refine ⟨?_, ?_, ?_⟩
    · intro a b hmem
      simp only [List.nil_append, List.mem_append, List.mem_singleton] at hmem
      rcases hmem with hmem | hmem
      · cases hmem
      · exact DoDNSUpdate_snd_no_dhcp C _ a b hmem
    · rw [DoDNSUpdate_fst]
    · simp
  · refine ⟨?_, rfl, ?_⟩
    · intro a b hmem
      simp at hmem
    · simp

/-- Witness for C2's amended theorem at the concrete idempotent scenario. -/
theorem dpcModify_idempotent_witness :
    Effect.updateDhcpClient 9 9 ∉ (HandleDPCModify collabId ctxC2 "zed" 7).2 ∧
    (HandleDPCModify collabId ctxC2 "zed" 7).1.DevicePortConfigPrio =
      priorityOf "zed" ∧
    Effect.makeStatusCall 7 5 ∈ (HandleDPCModify collabId ctxC2 "zed" 7).2 := by
  have h := dpcModify_idempotent collabId ctxC2 "zed" 7 (Or.inr (by decide)) rfl
  exact ⟨h.1 9 9, h.2.1, h.2.2⟩

/-! ### C5: status-projection failure is ignored, not contained -/

/-- The projector used by the C5 scenario: it always reports an error and
returns a status differing from the previous one. -/
def collabC5 : Collab Nat Nat Nat :=
  { collabN with makeDeviceNetworkStatus := fun _ ns => (ns + 1, true) }

/-- Owning zedagent-tier context for the C5 scenario. -/
def ctxC5 : DeviceNetworkContext Nat Nat Nat :=
  { ctx0 with
    DevicePortConfigPrio := 1
    DevicePortConfig := 3
    DeviceNetworkStatus := 5
    UsableAddressCount := 1 }

/-- Counterexample to C5: the projector returns an error, yet the previous
status 5 is overwritten with the returned status 6 and a status publication
is emitted — `dnStatus, _ := MakeDeviceNetworkStatus(...)` discards the
error, so nothing is retained on failure. -/
theorem dpcModify_projectorError_counterexample :
    (collabC5.makeDeviceNetworkStatus 3 5).2 = true ∧
    ctxC5.DeviceNetworkStatus = 5 ∧
    (HandleDPCModify collabC5 ctxC5 "zed" 3).1.DeviceNetworkStatus = 6 ∧
    Effect.pubDNS "global" (6 : Nat) ∈
      (HandleDPCModify collabC5 ctxC5 "zed" 3).2 := by decide

/-- C5 amended: on every accepted Modify the projector's error flag is
ignored — the resulting active status is always the projector's returned
status value (installed when it differs, coinciding with the previous one
when equal), and the projector is called exactly once (no retry within the
call). -/
theorem dpcModify_ignores_projector_error (C : Collab DNC PC NS)
    (ctx : DeviceNetworkContext DNC PC NS) (key : String) (pc : PC)
    (hacc : ctx.DevicePortConfigPrio = 0 ∨ priorityOf key ≤ ctx.DevicePortConfigPrio) :
    (HandleDPCModify C ctx key pc).1.DeviceNetworkStatus =
      (C.makeDeviceNetworkStatus pc ctx.DeviceNetworkStatus).1 ∧
    (HandleDPCModify C ctx key pc).2.countP Effect.isMakeStatusCall = 1 := by
  have hg : ¬ (ctx.DevicePortConfigPrio ≠ 0 ∧
      priorityOf key > ctx.DevicePortConfigPrio) := by omega
  by_cases h1 : ctx.DevicePortConfig = pc <;>
    by_cases h2 : (C.makeDeviceNetworkStatus pc ctx.DeviceNetworkStatus).1 =
      ctx.DeviceNetworkStatus
  · rw [dpcModify_eq_confSame_statSame C ctx key pc hg h1 h2]
    exact ⟨h2.symm, by simp [List.countP_cons, Effect.isMakeStatusCall]⟩
  · rw [dpcModify_eq_confSame_statDiff C ctx key pc hg h1 h2]
    refine ⟨?_, ?_⟩
    · rw [DoDNSUpdate_fst]
    · simp [List.countP_cons, Effect.isMakeStatusCall,
        DoDNSUpdate_snd_countP_statusCall]
  · rw [dpcModify_eq_confDiff_statSame C ctx key pc hg h1 h2]
    exact ⟨h2.symm, by simp [List.countP_cons, Effect.isMakeStatusCall]⟩
  · rw [dpcModify_eq_confDiff_statDiff C ctx key pc hg h1 h2]
    refine ⟨?_, ?_⟩
    · rw [DoDNSUpdate_fst]
    · simp [List.countP_cons, Effect.isMakeStatusCall,
        DoDNSUpdate_snd_countP_statusCall]

/-- Witness for C5's amended theorem at the erroring-projector scenario. -/
theorem dpcModify_ignores_projector_error_witness :
    (HandleDPCModify collabC5 ctxC5 "zed" 3).1.DeviceNetworkStatus =
      (collabC5.makeDeviceNetworkStatus 3 ctxC5.DeviceNetworkStatus).1 ∧
    (HandleDPCModify collabC5 ctxC5 "zed" 3).2.countP Effect.isMakeStatusCall = 1 :=
  dpcModify_ignores_projector_error collabC5 ctxC5 "zed" 3 (Or.inr (by decide))

/-! ### C6: availability signal transitions -/

/-- C6: on every `DoDNSUpdate` invocation, with `count` the freshly computed
usable-address count and the cached count as previous value: led signal 1 is
in the trace iff `count = 0` and previous ≠ 0; led signal 2 is in the trace
iff `count ≠ 0` and previous = 0; the led-signal entries of the trace are
exactly the one signal demanded by the transition table (so nothing fires on
a nonzero-to-nonzero change); and the cached count is set to `count`
unconditionally. -/
theorem doDNSUpdate_signals (C : Collab DNC PC NS)
    (ctx : DeviceNetworkContext DNC PC NS) :
    (Effect.ledSignal 1 ∈ (DoDNSUpdate C ctx).2 ↔
      (C.countLocalAddrAnyNoLinkLocal ctx.DeviceNetworkStatus = 0 ∧
        ctx.UsableAddressCount ≠ 0)) ∧
    (Effect.ledSignal 2 ∈ (DoDNSUpdate C ctx).2 ↔
      (C.countLocalAddrAnyNoLinkLocal ctx.DeviceNetworkStatus ≠ 0 ∧
        ctx.UsableAddressCount = 0)) ∧
    ((DoDNSUpdate C ctx).2.filter Effect.isLedSignal =
      if C.countLocalAddrAnyNoLinkLocal ctx.DeviceNetworkStatus = 0 ∧
          ctx.UsableAddressCount ≠ 0 then [Effect.ledSignal 1]
      else if C.countLocalAddrAnyNoLinkLocal ctx.DeviceNetworkStatus ≠ 0 ∧
          ctx.UsableAddressCount = 0 then [Effect.ledSignal 2]
      else []) ∧
    (DoDNSUpdate C ctx).1.UsableAddressCount =
      C.countLocalAddrAnyNoLinkLocal ctx.DeviceNetworkStatus := by
  refine ⟨?_, ?_, ?_, rfl⟩ <;>
    rw [DoDNSUpdate_snd] <;>
    split_ifs with h1 h2 <;>
    simp_all [Effect.isLedSignal]

/-- Witness for C6: on a 2-to-0 crossing exactly signal 1 fires and the
cached count becomes 0. -/
theorem doDNSUpdate_signals_witness :
    Effect.ledSignal 1 ∈
      (DoDNSUpdate collabN { ctx0 with UsableAddressCount := 2 }).2 ∧
    (DoDNSUpdate collabN { ctx0 with UsableAddressCount := 2 }).1.UsableAddressCount =
      0 := by
  have h := doDNSUpdate_signals collabN { ctx0 with UsableAddressCount := 2 }
  exact ⟨h.1.mpr (by decide), h.2.2.2⟩

/-! ### C8: publication conditions of DoDNSUpdate -/

/-- Context for the C8 counterexample: no status publication handle. -/
def ctxNoPub : DeviceNetworkContext Nat Nat Nat :=
  { ctx0 with
    hasPubDeviceNetworkStatus := false
    DeviceNetworkStatus := 4
    UsableAddressCount := 4 }

/-- Counterexample to C8: when `ctx.PubDeviceNetworkStatus` is nil, an
invocation of `DoDNSUpdate` publishes nothing (here the whole trace is
empty), so publication is not unconditional on every invocation. -/
theorem doDNSUpdate_publish_counterexample :
    ctxNoPub.hasPubDeviceNetworkStatus = false ∧
    (DoDNSUpdate collabN ctxNoPub).2 = [] := by decide

/-- C8 amended: whenever the status publication handle is non-nil, every
`DoDNSUpdate` invocation publishes the active status under the fixed topic
"global", regardless of the address counts (no boundary condition appears);
moreover, in an accepted Modify the status publication occurs exactly when
the projected status differs structurally from the previous one. -/
theorem doDNSUpdate_publishes (C : Collab DNC PC NS)
    (ctx : DeviceNetworkContext DNC PC NS) (key : String) (pc : PC)
    (hpub : ctx.hasPubDeviceNetworkStatus = true)
    (hacc : ctx.DevicePortConfigPrio = 0 ∨ priorityOf key ≤ ctx.DevicePortConfigPrio) :
    Effect.pubDNS "global" ctx.DeviceNetworkStatus ∈ (DoDNSUpdate C ctx).2 ∧
    (Effect.pubDNS "global" (C.makeDeviceNetworkStatus pc ctx.DeviceNetworkStatus).1 ∈
        (HandleDPCModify C ctx key pc).2 ↔
      (C.makeDeviceNetworkStatus pc ctx.DeviceNetworkStatus).1 ≠
        ctx.DeviceNetworkStatus) := by
  have hg : ¬ (ctx.DevicePortConfigPrio ≠ 0 ∧
      priorityOf key > ctx.DevicePortConfigPrio) := by omega
  constructor
  · rw [DoDNSUpdate_snd, hpub]
    simp
  · by_cases h1 : ctx.DevicePortConfig = pc <;>
      by_cases h2 : (C.makeDeviceNetworkStatus pc ctx.DeviceNetworkStatus).1 =
        ctx.DeviceNetworkStatus
    · rw [dpcModify_eq_confSame_statSame C ctx key pc hg h1 h2]
      simp [h2]
    · rw [dpcModify_eq_confSame_statDiff C ctx key pc hg h1 h2]
      rw [DoDNSUpdate_snd]
      simp only [ne_eq, h2, not_false_iff, iff_true]
      simp [hpub]
    · rw [dpcModify_eq_confDiff_statSame C ctx key pc hg h1 h2]
      simp [h2]
    · rw [dpcModify_eq_confDiff_statDiff C ctx key pc hg h1 h2]
      rw [DoDNSUpdate_snd]
      simp only [ne_eq, h2, not_false_iff, iff_true]
      simp [hpub]

/-- Witness for C8's amended theorem: with a configured publisher, a Modify
that changes the status publishes it under "global". -/
theorem doDNSUpdate_publishes_witness :
    Effect.pubDNS "global" ctxC5.DeviceNetworkStatus ∈
      (DoDNSUpdate collabC5 ctxC5).2 ∧
    (Effect.pubDNS "global"
        (collabC5.makeDeviceNetworkStatus 3 ctxC5.DeviceNetworkStatus).1 ∈
        (HandleDPCModify collabC5 ctxC5 "zed" 3).2 ↔
      (collabC5.makeDeviceNetworkStatus 3 ctxC5.DeviceNetworkStatus).1 ≠
        ctxC5.DeviceNetworkStatus) :=
  doDNSUpdate_publishes collabC5 ctxC5 "zed" 3 rfl (Or.inr (by decide))

/-! ### Shape of an accepted Delete, by case on the two structural diffs -/

theorem dpcDelete_eq_confSame_statSame (C : Collab DNC PC NS)
    (ctx : DeviceNetworkContext DNC PC NS) (key : String)
    (hg : ¬ ctx.DevicePortConfigPrio ≠ priorityOf key)
    (h1 : ctx.DevicePortConfig = C.emptyPC)
    (h2 : ctx.DeviceNetworkStatus = C.emptyNS) :
    HandleDPCDelete C ctx key = ({ ctx with DevicePortConfigPrio := 0 }, []) := by
  unfold HandleDPCDelete
  rw [if_neg hg]
  dsimp only
  rw [if_neg (not_not_intro h1)]
  dsimp only
  rw [if_neg (not_not_intro h2)]

theorem dpcDelete_eq_confSame_statDiff (C : Collab DNC PC NS)
    (ctx : DeviceNetworkContext DNC PC NS) (key : String)
    (hg : ¬ ctx.DevicePortConfigPrio ≠ priorityOf key)
    (h1 : ctx.DevicePortConfig = C.emptyPC)
    (h2 : ctx.DeviceNetworkStatus ≠ C.emptyNS) :
    HandleDPCDelete C ctx key =
      DoDNSUpdate C
        { ctx with DevicePortConfigPrio := 0, DeviceNetworkStatus := C.emptyNS } := by
  unfold HandleDPCDelete
  rw [if_neg hg]
  dsimp only
  rw [if_neg (not_not_intro h1)]
  dsimp only
  rw [if_pos h2]
  simp

theorem dpcDelete_eq_confDiff_statSame (C : Collab DNC PC NS)
    (ctx : DeviceNetworkContext DNC PC NS) (key : String)
    (hg : ¬ ctx.DevicePortConfigPrio ≠ priorityOf key)
    (h1 : ctx.DevicePortConfig ≠ C.emptyPC)
    (h2 : ctx.DeviceNetworkStatus = C.emptyNS) :
    HandleDPCDelete C ctx key =
      ({ ctx with DevicePortConfigPrio := 0, DevicePortConfig := C.emptyPC },
        [Effect.updateDhcpClient C.emptyPC ctx.DevicePortConfig]) := by
  unfold HandleDPCDelete
  rw [if_neg hg]
  dsimp only
  rw [if_pos h1]
  dsimp only
  rw [if_neg (not_not_intro h2)]

theorem dpcDelete_eq_confDiff_statDiff (C : Collab DNC PC NS)
    (ctx : DeviceNetworkContext DNC PC NS) (key : String)
    (hg : ¬ ctx.DevicePortConfigPrio ≠ priorityOf key)
    (h1 : ctx.DevicePortConfig ≠ C.emptyPC)
    (h2 : ctx.DeviceNetworkStatus ≠ C.emptyNS) :
    HandleDPCDelete C ctx key =
      ((DoDNSUpdate C
          { ctx with
            DevicePortConfigPrio := 0
            DevicePortConfig := C.emptyPC
            DeviceNetworkStatus := C.emptyNS }).1,
        Effect.updateDhcpClient C.emptyPC ctx.DevicePortConfig ::
          (DoDNSUpdate C
            { ctx with
              DevicePortConfigPrio := 0
              DevicePortConfig := C.emptyPC
              DeviceNetworkStatus := C.emptyNS }).2) := by
  unfold HandleDPCDelete
  rw [if_neg hg]
  dsimp only
  rw [if_pos h1]
  dsimp only
  rw [if_pos h2]
  simp

/-! ### C3: Delete does not run the status projector -/

/-- Projector for the C3 scenario: from the empty config 0 and previous
status 5 it would project 42, visibly different from the empty status 0. -/
def collabC3 : Collab Nat Nat Nat :=
  { collabN with makeDeviceNetworkStatus := fun pc ns => (pc + ns + 37, false) }

/-- Owning zedagent-tier context for the C3 scenario. -/
def ctxC3 : DeviceNetworkContext Nat Nat Nat :=
  { ctx0 with
    DevicePortConfigPrio := 1
    DevicePortConfig := 3
    DeviceNetworkStatus := 5 }

/-- Counterexample to C3: on this accepted Delete, the new status is the
empty status 0 rather than the projector's output 42 on the empty
configuration and previous status, and the full trace shows no
status-projector call (lines 161-175 of dnc.go assign
`types.DeviceNetworkStatus{}` directly instead of executing step 5 of the
Modify path). -/
theorem dpcDelete_noProjector_counterexample :
    priorityOf "zed" = ctxC3.DevicePortConfigPrio ∧
    (collabC3.makeDeviceNetworkStatus collabC3.emptyPC ctxC3.DeviceNetworkStatus).1 =
      42 ∧
    (HandleDPCDelete collabC3 ctxC3 "zed").1.DeviceNetworkStatus = 0 ∧
    (HandleDPCDelete collabC3 ctxC3 "zed").2 =
      [Effect.updateDhcpClient 0 3, Effect.pubDNS "global" 0] := by decide

/-- C3 amended: on an accepted Delete the engine takes the empty
configuration as candidate for the DHCP step, but the new status is the
empty `DeviceNetworkStatus` taken directly — the Status Projector is never
invoked — and the status replacement with availability notification happens
iff the previous status differs structurally from the empty status. -/
theorem dpcDelete_accepted_empties (C : Collab DNC PC NS)
    (ctx : DeviceNetworkContext DNC PC NS) (key : String)
    (hacc : priorityOf key = ctx.DevicePortConfigPrio) :
    (HandleDPCDelete C ctx key).1.DeviceNetworkStatus = C.emptyNS ∧
    (HandleDPCDelete C ctx key).1.DevicePortConfig = C.emptyPC ∧
    (∀ a b, Effect.makeStatusCall a b ∉ (HandleDPCDelete C ctx key).2) ∧
    (ctx.DevicePortConfig ≠ C.emptyPC →
      Effect.updateDhcpClient C.emptyPC ctx.DevicePortConfig ∈
        (HandleDPCDelete C ctx key).2) ∧
    (ctx.DeviceNetworkStatus = C.emptyNS →
      (HandleDPCDelete C ctx key).1.Changed = ctx.Changed ∧
      (HandleDPCDelete C ctx key).1.UsableAddressCount = ctx.UsableAddressCount) ∧
    (ctx.DeviceNetworkStatus ≠ C.emptyNS →
      (HandleDPCDelete C ctx key).1.Changed = true ∧
      (HandleDPCDelete C ctx key).1.UsableAddressCount =
        C.countLocalAddrAnyNoLinkLocal C.emptyNS) := by
  have hg : ¬ ctx.DevicePortConfigPrio ≠ priorityOf key := not_not_intro hacc.symm
  by_cases h1 : ctx.DevicePortConfig = C.emptyPC <;>
    by_cases h2 : ctx.DeviceNetworkStatus = C.emptyNS
  · rw [dpcDelete_eq_confSame_statSame C ctx key hg h1 h2]
    exact ⟨h2, h1, fun a b hmem => by simp at hmem, fun hne => absurd h1 hne,
      fun _ => ⟨rfl, rfl⟩, fun hne => absurd h2 hne⟩
  · rw [dpcDelete_eq_confSame_statDiff C ctx key hg h1 h2]
    refine ⟨rfl, h1, ?_, fun hne => absurd h1 hne, fun heq => absurd heq h2,
      fun _ => ⟨rfl, rfl⟩⟩
    intro a b hmem
    exact DoDNSUpdate_snd_no_statusCall C _ a b hmem
  · rw [dpcDelete_eq_confDiff_statSame C ctx key hg h1 h2]
    refine ⟨h2, rfl, fun a b hmem => by simp at hmem, fun _ => by simp,
      fun _ => ⟨rfl, rfl⟩, fun hne => absurd h2 hne⟩
  · rw [dpcDelete_eq_confDiff_statDiff C ctx key hg h1 h2]
    refine ⟨rfl, rfl, ?_, fun _ => by simp, fun heq => absurd heq h2,
      fun _ => ⟨rfl, rfl⟩⟩
    intro a b hmem
    rcases List.mem_cons.1 hmem with hmem | hmem
    · simp at hmem
    · exact DoDNSUpdate_snd_no_statusCall C _ a b hmem

/-- Witness for C3's amended theorem at the concrete Delete scenario. -/
theorem dpcDelete_accepted_empties_witness :
    (HandleDPCDelete collabC3 ctxC3 "zed").1.DeviceNetworkStatus =
      collabC3.emptyNS ∧
    Effect.makeStatusCall 1 1 ∉ (HandleDPCDelete collabC3 ctxC3 "zed").2 ∧
    Effect.updateDhcpClient collabC3.emptyPC ctxC3.DevicePortConfig ∈
      (HandleDPCDelete collabC3 ctxC3 "zed").2 ∧
    (HandleDPCDelete collabC3 ctxC3 "zed").1.Changed = true := by
  have h := dpcDelete_accepted_empties collabC3 ctxC3 "zed" (by decide)
  exact ⟨h.1, h.2.2.1 1 1, h.2.2.2.1 (by decide), (h.2.2.2.2.2 (by decide)).1⟩

/-! ### C9: legacy path overwrites the raw configuration unconditionally -/

/-- C9: on a matching manufacturer/model key, `HandleDNCModify` overwrites
`ctx.DeviceNetworkConfig` with the incoming payload unconditionally; in
particular, when the rebuilt `DevicePortConfig` equals the previously
published one, no publication occurs and yet the raw configuration has been
overwritten. -/
theorem dncModify_overwrites_raw (C : Collab DNC PC NS)
    (ctx : DeviceNetworkContext DNC PC NS) (key : String) (config : DNC)
    (h : key = ctx.ManufacturerModel) :
    (HandleDNCModify C ctx key config).1.DeviceNetworkConfig = config ∧
    (C.makeDevicePortConfig config =
        (match ctx.pubDevicePortConfigGlobal with
          | some c => c
          | none => C.emptyPC) →
      (HandleDNCModify C ctx key config).2 = []) := by
  unfold HandleDNCModify
  rw [if_neg (not_not_intro h)]
  dsimp only
  constructor
  · split_ifs <;> rfl
  · intro heq
    rw [if_neg (not_not_intro heq.symm)]

/-- Legacy builder collapsing every raw config to 0, for the C9 witness. -/
def collabConst : Collab Nat Nat Nat :=
  { collabN with makeDevicePortConfig := fun _ => 0 }

/-- Witness for C9: the raw configuration becomes 9 even though the rebuilt
port config equals the previously published one and nothing is published. -/
theorem dncModify_overwrites_raw_witness :
    (HandleDNCModify collabConst ctx0 "model" 9).1.DeviceNetworkConfig = 9 ∧
    (HandleDNCModify collabConst ctx0 "model" 9).2 = [] := by
  have h := dncModify_overwrites_raw collabConst ctx0 "model" 9 rfl
  exact ⟨h.1, h.2 rfl⟩

/-! ### C4: event sequences and the precedence-zero invariant -/

/-- A Modify or Delete event delivered to the DPC handlers. -/
inductive DPCEvent (PC : Type) where
  | modify (key : String) (config : PC)
  | delete (key : String)
  deriving DecidableEq

/-- One event step of the reconciliation engine. -/
def dpcStep (C : Collab DNC PC NS) (ctx : DeviceNetworkContext DNC PC NS) :
    DPCEvent PC → DeviceNetworkContext DNC PC NS × List (Effect PC NS)
  | DPCEvent.modify k c => HandleDPCModify C ctx k c
  | DPCEvent.delete k => HandleDPCDelete C ctx k

/-- The state after delivering a sequence of events. -/
def runDPC (C : Collab DNC PC NS) (ctx : DeviceNetworkContext DNC PC NS) :
    List (DPCEvent PC) → DeviceNetworkContext DNC PC NS
  | [] => ctx
  | e :: es => runDPC C (dpcStep C ctx e).1 es

/-- The acceptance test of `HandleDPCModify` (negation of its early-return
condition). -/
def dpcModifyAccepted (ctx : DeviceNetworkContext DNC PC NS) (key : String) : Bool :=
  if ctx.DevicePortConfigPrio ≠ 0 ∧ priorityOf key > ctx.DevicePortConfigPrio
  then false else true

/-- The acceptance test of `HandleDPCDelete`. -/
def dpcDeleteAccepted (ctx : DeviceNetworkContext DNC PC NS) (key : String) : Bool :=
  if ctx.DevicePortConfigPrio = priorityOf key then true else false

/-- Number of Modify events accepted along a run. -/
def acceptedModifyCount (C : Collab DNC PC NS)
    (ctx : DeviceNetworkContext DNC PC NS) : List (DPCEvent PC) → Nat
  | [] => 0
  | DPCEvent.modify k c :: es =>
      (if dpcModifyAccepted ctx k then 1 else 0) +
        acceptedModifyCount C (HandleDPCModify C ctx k c).1 es
  | DPCEvent.delete k :: es =>
      acceptedModifyCount C (HandleDPCDelete C ctx k).1 es

/-- Whether some Modify has been accepted after the last accepted Delete
(starting from `flag` at the head of the event list). -/
def modifiedSinceReset (C : Collab DNC PC NS)
    (ctx : DeviceNetworkContext DNC PC NS) (flag : Bool) :
    List (DPCEvent PC) → Bool
  | [] => flag
  | DPCEvent.modify k c :: es =>
      modifiedSinceReset C (HandleDPCModify C ctx k c).1
        (flag || dpcModifyAccepted ctx k) es
  | DPCEvent.delete k :: es =>
      modifiedSinceReset C (HandleDPCDelete C ctx k).1
        (if dpcDeleteAccepted ctx k then false else flag) es

theorem priorityOf_pos (key : String) : 0 < priorityOf key := by
  unfold priorityOf
  split_ifs <;> omega

theorem dpcModify_rejected_eq (C : Collab DNC PC NS)
    (ctx : DeviceNetworkContext DNC PC NS) (key : String) (pc : PC)
    (h : dpcModifyAccepted ctx key = false) :
    HandleDPCModify C ctx key pc = (ctx, []) := by
  by_cases hG : ctx.DevicePortConfigPrio ≠ 0 ∧
      priorityOf key > ctx.DevicePortConfigPrio
  · unfold HandleDPCModify
    rw [if_pos hG]
  · simp [dpcModifyAccepted, hG] at h

theorem dpcModify_accepted_prio (C : Collab DNC PC NS)
    (ctx : DeviceNetworkContext DNC PC NS) (key : String) (pc : PC)
    (h : dpcModifyAccepted ctx key = true) :
    (HandleDPCModify C ctx key pc).1.DevicePortConfigPrio = priorityOf key := by
  have hG : ¬ (ctx.DevicePortConfigPrio ≠ 0 ∧
      priorityOf key > ctx.DevicePortConfigPrio) := by
    intro hG
    simp [dpcModifyAccepted, hG] at h
  unfold HandleDPCModify
  rw [if_neg hG]
  dsimp only
  split_ifs <;> simp [DoDNSUpdate_fst]

theorem dpcDelete_rejected_eq (C : Collab DNC PC NS)
    (ctx : DeviceNetworkContext DNC PC NS) (key : String)
    (h : dpcDeleteAccepted ctx key = false) :
    HandleDPCDelete C ctx key = (ctx, []) := by
  have hG : ctx.DevicePortConfigPrio ≠ priorityOf key := by
    intro hG
    simp [dpcDeleteAccepted, hG] at h
  unfold HandleDPCDelete
  rw [if_pos hG]

theorem dpcDelete_accepted_prio (C : Collab DNC PC NS)
    (ctx : DeviceNetworkContext DNC PC NS) (key : String)
    (h : dpcDeleteAccepted ctx key = true) :
    (HandleDPCDelete C ctx key).1.DevicePortConfigPrio = 0 := by
  have hG : ¬ ctx.DevicePortConfigPrio ≠ priorityOf key := by
    intro hG
    simp [dpcDeleteAccepted, hG] at h
  unfold HandleDPCDelete
  rw [if_neg hG]
  dsimp only
  split_ifs <;> simp [DoDNSUpdate_fst]

theorem prio_flag_invariant (C : Collab DNC PC NS) (events : List (DPCEvent PC)) :
    ∀ (ctx : DeviceNetworkContext DNC PC NS) (flag : Bool),
      (ctx.DevicePortConfigPrio ≠ 0 ↔ flag = true) →
      ((runDPC C ctx events).DevicePortConfigPrio ≠ 0 ↔
        modifiedSinceReset C ctx flag events = true) := by
  induction events with
  | nil =>
    intro ctx flag h
    exact h
  | cons e es ih =>
    intro ctx flag h
    cases e with
    | modify k c =>
      simp only [runDPC, dpcStep, modifiedSinceReset]
      apply ih
      cases hb : dpcModifyAccepted ctx k with
      | false =>
        rw [dpcModify_rejected_eq C ctx k c hb]
        simpa using h
      | true =>
        rw [dpcModify_accepted_prio C ctx k c hb]
        have hp := priorityOf_pos k
        simp
        omega
    | delete k =>
      simp only [runDPC, dpcStep, modifiedSinceReset]
      apply ih
      cases hb : dpcDeleteAccepted ctx k with
      | false =>
        rw [dpcDelete_rejected_eq C ctx k hb]
        simpa using h
      | true =>
        rw [dpcDelete_accepted_prio C ctx k hb]
        simp

/-- The event sequence refuting C4: an accepted zedagent Modify followed by
an accepted zedagent Delete. -/
def evsC4 : List (DPCEvent Nat) :=
  [DPCEvent.modify "zed" 7, DPCEvent.delete "zed"]

/-- Counterexample to C4: after an accepted Modify and an accepted Delete the
active precedence is back to 0 although one Modify event has been accepted,
so "precedence 0 iff no Modify ever accepted" fails in states reachable
through Delete (`HandleDPCDelete` resets the priority to 0, line 159 of
dnc.go). -/
theorem dpc_prioZero_counterexample :
    (runDPC collabN ctx0 evsC4).DevicePortConfigPrio = 0 ∧
    acceptedModifyCount collabN ctx0 evsC4 = 1 := by decide

/-- C4 amended: in every state reachable from an initial state with unset
precedence, the active precedence is 0 iff no Modify event has been accepted
since the last accepted Delete (or since the initial state when no Delete
was ever accepted) — `modifiedSinceReset` starting from `false`. -/
theorem dpc_prioZero_iff_no_modify_since_reset (C : Collab DNC PC NS)
    (init : DeviceNetworkContext DNC PC NS) (events : List (DPCEvent PC))
    (h : init.DevicePortConfigPrio = 0) :
    ((runDPC C init events).DevicePortConfigPrio = 0 ↔
      modifiedSinceReset C init false events = false) := by
  have h2 := prio_flag_invariant C events init false (by simp [h])
  cases hf : modifiedSinceReset C init false events with
  | false =>
    rw [hf] at h2
    simp only [Bool.false_eq_true, iff_false, not_not] at h2
    simp [h2]
  | true =>
    rw [hf] at h2
    simp only [iff_true] at h2
    simp [h2]

/-- Witness for C4's amended theorem on the concrete two-event run. -/
theorem dpc_prioZero_iff_no_modify_since_reset_witness :
    ((runDPC collabN ctx0 evsC4).DevicePortConfigPrio = 0 ↔
      modifiedSinceReset collabN ctx0 false evsC4 = false) :=
  dpc_prioZero_iff_no_modify_since_reset collabN ctx0 evsC4 rfl

end DeviceNetwork
